import Mathlib

/-!
Shallow embedding of the river measurement visualization app (src/app.py)
over exact rational arithmetic, together with theorems about the
measurement-to-geometry transform it implements.

Conventions:
* Python floats are modelled as `ℚ`; decimal literals of the source such as
  `0.5`, `0.7`, `1.2` denote the corresponding exact rationals.
* Fallible Python code is modelled with `Option`: `none` marks an input on
  which the Python code raises an exception (index error, `max()` of an
  empty sequence, a `scipy` `ValueError`, ...).
* The per-site dictionary `st.session_state.point_data[i]` becomes the
  structure `Site`; the whole session (`point_data` together with
  `num_points`) becomes `Study`, an ordered list of sites.
-/

namespace Riverwalks

/-- One measurement site: the per-site entry of `st.session_state.point_data`
(src/app.py lines 46-52): display name, river width, declared number of
depth measurements, and the two measurement arrays. -/
structure Site where
  point_name : String
  width : ℚ
  num_measurements : ℕ
  distances : List ℚ
  depths : List ℚ
  deriving DecidableEq

/-- A study is the ordered collection of sites (`point_data[0..num_points-1]`). -/
abbrev Study := List Site

/-! ## Cross-section builder (per-site 2D preview, lines 139-237 / 588-644) -/

/-- A 2D scatter trace: parallel coordinate arrays, as handed to the plotting
library. -/
structure Scatter2D where
  name : String
  x : List ℚ
  y : List ℚ
  deriving DecidableEq

/-- The four scatter traces of the per-site cross-section figure, in the order
they are added (lines 143-182; the all-cross-sections subplot at lines 588-644
adds the same four traces): left bank, right bank, river bed, water surface.
The river-bed trace passes `distances` through unchanged and negates `depths`
pointwise (lines 165-173). -/
def crossSectionTraces (s : Site) : List Scatter2D :=
  [ { name := "Left Bank", x := [-0.5, 0], y := [0.5, 0] },
    { name := "Right Bank", x := [s.width, s.width + 0.5], y := [0, 0.5] },
    { name := "River Bed", x := s.distances, y := s.depths.map (fun d => -d) },
    { name := "Water Surface", x := [0, s.width], y := [0, 0] } ]

/-! ## Form update step (lines 77-90) -/

/-- The per-site update applied when the width or measurement-count widget
changes (lines 77-90): if either value changed, both are stored; the
`distances`/`depths` arrays are reset to `[]` exactly when the measurement
count changed. -/
def updateWidthNum (s : Site) (w : ℚ) (n : ℕ) : Site :=
  if w ≠ s.width ∨ n ≠ s.num_measurements then
    let s1 : Site := { s with width := w, num_measurements := n }
    if n ≠ s.num_measurements then { s1 with distances := [], depths := [] } else s1
  else s

/-- Applying the width/measurement-count update to site `i` of the study
(the in-place mutation of `st.session_state.point_data[i]`). -/
def applySiteInput (study : Study) (i : ℕ) (w : ℚ) (n : ℕ) : Study :=
  match study.get? i with
  | some s => study.set i (updateWidthNum s w n)
  | none => study

/-! ## Tabular export (lines 717-727) -/

/-- One row of the measurement data table / CSV export. -/
structure Row where
  siteNumber : ℕ
  siteName : String
  pointNumber : ℕ
  distance : ℚ
  depth : ℚ
  deriving DecidableEq

/-- Evaluate `f` on every element, failing if any evaluation fails: the
effect of a Python loop (or vectorized call) whose body can raise. -/
def optMap {α β : Type} (f : α → Option β) : List α → Option (List β)
  | [] => some []
  | a :: l =>
    match f a, optMap f l with
    | some b, some bs => some (b :: bs)
    | _, _ => none

/-- Rows contributed by site `s` at index `i`: the inner loop of the table
construction, `for j in range(len(distances))`, reading `distances[j]` and
`depths[j]` (lines 720-727).  `depths[j]` raises when `depths` is shorter
than `distances`. -/
def siteRows (i : ℕ) (s : Site) : Option (List Row) :=
  optMap (fun j =>
    match s.distances.get? j, s.depths.get? j with
    | some dist, some dep =>
      some { siteNumber := i + 1, siteName := s.point_name,
             pointNumber := j + 1, distance := dist, depth := dep }
    | _, _ => none)
    (List.range s.distances.length)

/-- The full `table_data` list (lines 717-727): sites in index order, points
in index order within each site. -/
def tableData (study : Study) : Option (List Row) :=
  (optMap (fun p => siteRows p.1 p.2) study.enum).map List.flatten

/-! ## Depth-surface interpolator (lines 264-291)

The app calls `scipy.interpolate.interp1d(x, y, kind=kind, bounds_error=False,
fill_value="extrapolate")`.  `scipy` is an external collaborator whose code is
not part of this repository, so its behaviour is modelled here, following the
spec's contract for the interpolator (fit an interpolant through the points,
linear for up to 3 points and a smooth cubic interpolant for more, evaluate it
at the resampled positions, extrapolating rather than failing out of range)
together with scipy's documented input requirements (equal-length arrays, at
least 2 points, at least 4 for the cubic kind, and for the spline kinds
strictly increasing x after sorting - duplicate x values make the cubic
spline construction raise). -/

/-- Resample count `M` (`num_interp_points`, line 264). -/
def numInterpPoints : ℕ := 30

/-- Exact model of `numpy.linspace a b n`: `n` evenly spaced values from `a`
to `b` inclusive. -/
def linspace (a b : ℚ) (n : ℕ) : List ℚ :=
  (List.range n).map (fun (j : ℕ) => a + (b - a) * (j : ℚ) / ((n - 1 : ℕ) : ℚ))

instance : IsTotal (ℚ × ℚ) (fun p q => p.1 ≤ q.1) :=
  ⟨fun a b => le_total a.1 b.1⟩

instance : IsTrans (ℚ × ℚ) (fun p q => p.1 ≤ q.1) :=
  ⟨fun _ _ _ hab hbc => le_trans hab hbc⟩

/-- Sort the measurement pairs by distance, as `interp1d` does with its
`assume_sorted=False` default. -/
def sortPairs (ps : List (ℚ × ℚ)) : List (ℚ × ℚ) :=
  List.insertionSort (fun p q => p.1 ≤ q.1) ps

/-- Index of the interpolation segment used for the query point `x`:
`numpy.searchsorted` on the sorted abscissas, clipped to `[1, n-1]` (the
clipping is what makes out-of-range queries extrapolate from the first or
last segment). -/
def segIdx (xs : List ℚ) (x : ℚ) : ℕ :=
  min (max (xs.takeWhile (fun a => decide (a < x))).length 1) (xs.length - 1)

/-- Piecewise-linear interpolation (with linear extrapolation from the end
segments) on sorted data: the `kind='linear'` evaluator. -/
def linEval (sx sy : List ℚ) (x : ℚ) : ℚ :=
  let idx := segIdx sx x
  let lo := idx - 1
  let xlo := sx.getD lo 0
  let xhi := sx.getD idx 0
  let ylo := sy.getD lo 0
  let yhi := sy.getD idx 0
  ylo + (yhi - ylo) / (xhi - xlo) * (x - xlo)

/-- Row `i` of the cubic-spline second-derivative (moment) system for sorted
data: sub-diagonal, diagonal, super-diagonal coefficients and right-hand
side.  With constant ordinates the right-hand side is `0`. -/
def splineRhsRow (sx sy : List ℚ) (i : ℕ) : ℚ × ℚ × ℚ × ℚ :=
  let hm := sx.getD i 0 - sx.getD (i - 1) 0
  let hi := sx.getD (i + 1) 0 - sx.getD i 0
  (hm, 2 * (hm + hi), hi,
    6 * ((sy.getD (i + 1) 0 - sy.getD i 0) / hi - (sy.getD i 0 - sy.getD (i - 1) 0) / hm))

/-- The interior rows of the moment system, `i = 1 .. n-2`. -/
def splineRows (sx sy : List ℚ) : List (ℚ × ℚ × ℚ × ℚ) :=
  (List.range (sx.length - 2)).map (fun k => splineRhsRow sx sy (k + 1))

/-- Forward sweep of the tridiagonal (Thomas) solver, carrying the previous
modified super-diagonal and right-hand side. -/
def thomasSweep (prev : ℚ × ℚ) : List (ℚ × ℚ × ℚ × ℚ) → List (ℚ × ℚ)
  | [] => []
  | (a, b, c, d) :: rest =>
    let denom := b - a * prev.1
    let c1 := c / denom
    let d1 := (d - a * prev.2) / denom
    (c1, d1) :: thomasSweep (c1, d1) rest

/-- Back substitution of the tridiagonal solver. -/
def thomasBack : List (ℚ × ℚ) → List ℚ
  | [] => []
  | (c1, d1) :: rest =>
    match thomasBack rest with
    | [] => [d1]
    | x :: xs => (d1 - c1 * x) :: x :: xs

/-- Second derivatives of the interpolating cubic spline at the knots
(natural boundary: zero at both ends). -/
def splineMoments (sx sy : List ℚ) : List ℚ :=
  0 :: (thomasBack (thomasSweep (0, 0) (splineRows sx sy)) ++ [0])

/-- Evaluate the interpolating cubic spline with knot moments `ms` at `x`,
extrapolating with the first/last polynomial piece out of range. -/
def cubicEval (sx sy ms : List ℚ) (x : ℚ) : ℚ :=
  let idx := segIdx sx x
  let lo := idx - 1
  let xlo := sx.getD lo 0
  let xhi := sx.getD idx 0
  let ylo := sy.getD lo 0
  let yhi := sy.getD idx 0
  let mlo := ms.getD lo 0
  let mhi := ms.getD idx 0
  let h := xhi - xlo
  mlo * (xhi - x) ^ 3 / (6 * h) + mhi * (x - xlo) ^ 3 / (6 * h) +
    (ylo - mlo * h ^ 2 / 6) * (xhi - x) / h +
    (yhi - mhi * h ^ 2 / 6) * (x - xlo) / h

/-- Strictly-increasing test on a list of rationals (the `x[1:] > x[:-1]`
check of the spline constructor). -/
def strictIncr : List ℚ → Bool
  | [] => true
  | [_] => true
  | a :: b :: t => if a < b then strictIncr (b :: t) else false

/-- Interpolation kinds used by the app (line 282). -/
inductive InterpKind
  | linear
  | cubic
  deriving DecidableEq

/-- Guard applied by the evaluator: with `bounds_error=True` a query outside
the measured range raises, with `bounds_error=False` it never does. -/
def evalGuard (bounds_error : Bool) (lo hi x : ℚ) (v : ℚ) : Option ℚ :=
  if bounds_error = true ∧ (x < lo ∨ hi < x) then none else some v

/-- The measured abscissas sorted ascending (paired sort by distance). -/
def sortedXs (xs ys : List ℚ) : List ℚ := (sortPairs (xs.zip ys)).map Prod.fst

/-- The measured ordinates carried along by the paired sort. -/
def sortedYs (xs ys : List ℚ) : List ℚ := (sortPairs (xs.zip ys)).map Prod.snd

/-- Modelled from the spec: `scipy.interpolate.interp1d(x, y, kind=kind,
bounds_error=bounds_error, fill_value="extrapolate")` (called at lines
283-284), the external interpolation routine, which is not part of this
repository.  Construction fails (`None`) when the arrays differ in length,
when fewer than 2 points are given (4 for the cubic kind), or when the
cubic kind is given duplicate abscissas; otherwise it returns the evaluator,
which itself fails only on out-of-range queries with `bounds_error=True`. -/
def interp1d (xs ys : List ℚ) (kind : InterpKind) (bounds_error : Bool) :
    Option (ℚ → Option ℚ) :=
  if xs.length = ys.length ∧ 2 ≤ xs.length ∧
      (kind = InterpKind.cubic →
        4 ≤ xs.length ∧ strictIncr (sortedXs xs ys) = true) then
    match kind with
    | InterpKind.linear =>
      some (fun x =>
        evalGuard bounds_error ((sortedXs xs ys).getD 0 0)
          ((sortedXs xs ys).getD ((sortedXs xs ys).length - 1) 0) x
          (linEval (sortedXs xs ys) (sortedYs xs ys) x))
    | InterpKind.cubic =>
      some (fun x =>
        evalGuard bounds_error ((sortedXs xs ys).getD 0 0)
          ((sortedXs xs ys).getD ((sortedXs xs ys).length - 1) 0) x
          (cubicEval (sortedXs xs ys) (sortedYs xs ys)
            (splineMoments (sortedXs xs ys) (sortedYs xs ys)) x))
  else none

/-- The resampled x-positions for one site: `x_interp = np.linspace(0,
point_width, num_interp_points)` (line 278). -/
def siteXInterp (s : Site) : List ℚ := linspace 0 s.width numInterpPoints

/-- The resampled elevations for one site (lines 280-287): with at least two
measured points, interpolate (`kind='cubic'` above 3 points, else linear) and
negate pointwise; otherwise replicate the negated first depth (`depths[0]`
raises when `depths` is empty). -/
def siteZInterp (s : Site) : Option (List ℚ) :=
  if 2 ≤ s.distances.length then
    match interp1d s.distances s.depths
        (if 3 < s.distances.length then InterpKind.cubic else InterpKind.linear) false with
    | some f => optMap (fun x => (f x).map (fun z => -z)) (siteXInterp s)
    | none => none
  else
    match s.depths.get? 0 with
    | some d0 => some (List.replicate numInterpPoints (-d0))
    | none => none

/-! ## Composite profile assembler (lines 243-536) -/

/-- A 3D surface trace: grids of x, y and z coordinates. -/
structure Surface where
  name : String
  x : List (List ℚ)
  y : List (List ℚ)
  z : List (List ℚ)
  deriving DecidableEq

/-- A trace of the composite 3D figure: a surface mesh, a measurement-point
marker (`Scatter3d` with `mode='markers+text'`, text showing the depth), or a
site-name label (`Scatter3d` with `mode='text'`). -/
inductive Trace3D
  | surface (s : Surface)
  | marker (x y z : List ℚ)
  | siteLabel (x y z : List ℚ) (text : List String)
  deriving DecidableEq

/-- Whether a trace is a surface mesh. -/
def Trace3D.isSurface : Trace3D → Bool
  | Trace3D.surface _ => true
  | _ => false

/-- The continuous river-bed surface (lines 267-321): row `i` holds site `i`'s
resampled x-positions, the constant site index, and the resampled elevations. -/
def riverbedSurface (study : Study) : Option Surface :=
  (optMap siteZInterp study).map (fun zs =>
    { name := "River Bed"
      x := study.map siteXInterp
      y := (List.range study.length).map (fun (i : ℕ) => List.replicate numInterpPoints (i : ℚ))
      z := zs })

/-- Height of the banks above water, `bank_height` (line 259). -/
def bank_height : ℚ := 0.5

/-- One 6-point cross-axis profile of the left bank (lines 346-369): from the
river's left edge at elevation 0, up over the bank top, down the far side to
`-max_depth_section*1.2`, and back to the river edge at that depth. -/
def leftBankProfileX (be : ℚ) : List ℚ := [0, -be / 2, -be, -be, -be / 2, 0]

/-- Elevations of the 6-point bank profile (shared by left and right banks). -/
def bankProfileZ (bh mds : ℚ) : List ℚ :=
  [0, bh * 0.7, bh, -mds * 1.2, -mds * 1.2, -mds * 1.2]

/-- The 3x6 left-bank mesh for the site pair starting at index `i`
(lines 336-387): three profiles at the interpolation fractions 0, 1/2, 1
along the site axis (the flat point lists of the source reshaped as
`(3, 6)`, one row per fraction). -/
def leftBankSurface (i : ℕ) (be bh mds : ℚ) : Surface :=
  { name := "Left Bank"
    x := [leftBankProfileX be, leftBankProfileX be, leftBankProfileX be]
    y := ([0, 0.5, 1] : List ℚ).map (fun f => List.replicate 6 ((i : ℚ) + f))
    z := [bankProfileZ bh mds, bankProfileZ bh mds, bankProfileZ bh mds] }

/-- River width interpolated along the site axis, `width_at_y` (line 344). -/
def widthAt (cw nw f : ℚ) : ℚ := cw + (nw - cw) * f

/-- The mirrored 6-point right-bank profile at width `w` (lines 398-421). -/
def rightBankProfileX (w be : ℚ) : List ℚ :=
  [w, w + be / 2, w + be, w + be, w + be / 2, w]

/-- The 3x6 right-bank mesh for the site pair starting at index `i`
(lines 389-436). -/
def rightBankSurface (i : ℕ) (cw nw be bh mds : ℚ) : Surface :=
  { name := "Right Bank"
    x := ([0, 0.5, 1] : List ℚ).map (fun f => rightBankProfileX (widthAt cw nw f) be)
    y := ([0, 0.5, 1] : List ℚ).map (fun f => List.replicate 6 ((i : ℚ) + f))
    z := ([0, 0.5, 1] : List ℚ).map (fun _ => bankProfileZ bh mds) }

/-- The 2x10 bottom mesh connecting the site pair starting at index `i`
(lines 438-470): ten evenly spaced x-positions from 0 to the local width,
all at elevation `-max_depth_section*1.2`. -/
def bottomSurface (i : ℕ) (cw nw mds : ℚ) : Surface :=
  { name := "River Bottom"
    x := ([0, 1] : List ℚ).map (fun f =>
      (List.range 10).map (fun (j : ℕ) => (j : ℚ) / 9 * widthAt cw nw f))
    y := ([0, 1] : List ℚ).map (fun f => List.replicate 10 ((i : ℚ) + f))
    z := ([0, 1] : List ℚ).map (fun _ => List.replicate 10 (-mds * 1.2)) }

/-- `max_depth_section = max(max(curr_depths), max(next_depths))` (line 334);
`max()` of an empty array raises. -/
def maxDepthSection (curr next : Site) : Option ℚ :=
  match curr.depths.max?, next.depths.max? with
  | some a, some b => some (max a b)
  | _, _ => none

/-- The bank and bottom meshes for every consecutive site pair (the loop at
lines 328-470), in pair order: (left bank, right bank, bottom) for each
`i < N - 1`. -/
def pairSurfaces (study : Study) (be bh : ℚ) :
    Option (List (Surface × Surface × Surface)) :=
  optMap (fun i =>
    match study.get? i, study.get? (i + 1) with
    | some curr, some next =>
      (maxDepthSection curr next).map (fun mds =>
        (leftBankSurface i be bh mds,
         rightBankSurface i curr.width next.width be bh mds,
         bottomSurface i curr.width next.width mds))
    | _, _ => none)
    (List.range (study.length - 1))

/-- The water-surface mesh (lines 472-499): row per site, each spanning that
site's own width at elevation 0. -/
def waterSurface (study : Study) : Surface :=
  { name := "Water Surface"
    x := study.map (fun s => linspace 0 s.width numInterpPoints)
    y := (List.range study.length).map (fun (i : ℕ) => List.replicate numInterpPoints (i : ℚ))
    z := study.map (fun _ => List.replicate numInterpPoints 0) }

/-- The measurement-point markers (lines 501-521): for each site `i` and each
pair in `zip(distances, depths)`, a marker at `(dist, i, -depth)`. -/
def markerTraces (study : Study) : List Trace3D :=
  study.enum.flatMap (fun p =>
    (p.2.distances.zip p.2.depths).map (fun q =>
      Trace3D.marker [q.1] [(p.1 : ℚ)] [-q.2]))

/-- The site-name labels (lines 523-536): one text trace per site, placed
beyond the right bank extent at mid bank-height. -/
def labelTraces (study : Study) (mw be bh : ℚ) : List Trace3D :=
  study.enum.map (fun p =>
    Trace3D.siteLabel [mw + be + 0.5] [(p.1 : ℚ)] [bh / 2] [p.2.point_name])

/-- The surface meshes of the composite figure (lines 262-499), built only
when at least two sites exist (line 262): the river bed, then per pair the
left bank, right bank and bottom, then the water surface. -/
def compositeSurfaces (study : Study) (be : ℚ) : Option (List Trace3D) :=
  if 2 ≤ study.length then
    match riverbedSurface study, pairSurfaces study be bank_height with
    | some rb, some ps =>
      some (Trace3D.surface rb ::
        (ps.flatMap (fun t =>
          [Trace3D.surface t.1, Trace3D.surface t.2.1, Trace3D.surface t.2.2]) ++
         [Trace3D.surface (waterSurface study)]))
    | _, _ => none
  else some []

/-- The traces of the composite 3D figure, in the order they are added
(lines 244-536): `none` models a Python exception escaping the construction.
`max_width` and `max_depth_overall` (lines 245-246) are computed first (and
raise on an empty study or an empty depths array); the surface meshes are
built only when at least two sites exist (line 262); markers and labels are
added for any number of sites. -/
def compositeTraces (study : Study) : Option (List Trace3D) :=
  match (study.map Site.width).max? with
  | none => none
  | some maxWidth =>
    match (optMap (fun s => s.depths.max?) study).bind List.max? with
    | none => none
    | some _maxDepthOverall =>
      match compositeSurfaces study (maxWidth * 0.5) with
      | none => none
      | some surfaces =>
        some (surfaces ++ markerTraces study ++
          labelTraces study maxWidth (maxWidth * 0.5) bank_height)

/-! ## Visualization tab and page (lines 36, 240-742) -/

/-- The validated-by-construction precondition of the composite builder: at
least one site (the visualization tab exists only when `num_points > 0`,
line 36), and per site a non-empty depths array, equal-length arrays, and
distances within `[0, width]`. -/
abbrev ValidStudy (study : Study) : Prop :=
  study ≠ [] ∧ ∀ s ∈ study, s.depths ≠ [] ∧
    s.distances.length = s.depths.length ∧ ∀ x ∈ s.distances, 0 ≤ x ∧ x ≤ s.width

/-- The gate guarding the composite visualization (line 243): every site has
at least one recorded depth. -/
def depthsRecorded (study : Study) : Bool :=
  study.all (fun s => !s.depths.isEmpty)

/-- What the visualization area shows. -/
inductive PageView
  | noSites
  | placeholderMsg
  | composite (traces : List Trace3D)
  deriving DecidableEq

/-- Whether the page shows the composite visualization. -/
def PageView.isComposite : PageView → Bool
  | PageView.composite _ => true
  | _ => false

/-- The visualization tab (lines 240-742): the composite figure when every
site has a recorded depth, the `st.info` placeholder otherwise. -/
def vizTab (study : Study) : Option PageView :=
  if depthsRecorded study then (compositeTraces study).map PageView.composite
  else some PageView.placeholderMsg

/-- The whole page: tabs (and hence the visualization tab) exist only when
`num_points > 0` (line 36). -/
def renderPage (study : Study) : Option PageView :=
  if 0 < study.length then vizTab study else some PageView.noSites

/-! ## Concrete example data used by the witness theorems -/

/-- Concrete check of C1 on a site whose distances are deliberately unsorted. -/
def c1Site : Site :=
  { point_name := "Site 1", width := 2, num_measurements := 3,
    distances := [2, 0, 1], depths := [1, 2, 1] }

/-- Concrete site for the C3 witness (a single measurement point, so the
resampled output is computable by kernel reduction). -/
def c3Site : Site :=
  { point_name := "Site 1", width := 2, num_measurements := 2,
    distances := [1], depths := [1] }

/-- Concrete constant-depth site of the C4 witness (the spec's own example). -/
def c4Site : Site :=
  { point_name := "Site 1", width := 2, num_measurements := 3,
    distances := [0, 1, 2], depths := [1, 1, 1] }

/-- Constant-depth site with more than 3 points and a duplicated distance:
`scipy`'s cubic spline construction rejects duplicate abscissas. -/
def c4DupSite : Site :=
  { point_name := "Site 1", width := 2, num_measurements := 4,
    distances := [0, 0, 1, 2], depths := [1, 1, 1, 1] }

/-- Concrete 2-site study of the C6 witness: site 0 has 3 points; site 1's
count changes from 3 to 5. -/
def c6Study : Study :=
  [ { point_name := "Upstream", width := 2, num_measurements := 3,
      distances := [0, 1, 2], depths := [1, 2, 1] },
    { point_name := "Meander", width := 3, num_measurements := 3,
      distances := [0, 2, 3], depths := [1, 3, 1] } ]

/-- Concrete study of the C9 witness: site 0's width shrinks from 2 to 1
while its measured distance 2 stays in place. -/
def c9Study : Study :=
  [ { point_name := "Upstream", width := 2, num_measurements := 3,
      distances := [0, 1, 2], depths := [1, 2, 1] } ]

/-- Concrete 2-site study of the C7 witness: 2 points at site 1 and 3 points
at site 2, giving 5 rows, the first two with site number 1. -/
def c7Study : Study :=
  [ { point_name := "Upstream", width := 2, num_measurements := 2,
      distances := [0, 2], depths := [1, 2] },
    { point_name := "Meander", width := 3, num_measurements := 3,
      distances := [0, 2, 3], depths := [1, 3, 1] } ]

/-- Concrete 2-site study of the C8 witness: widths 4 and 6 (so the study's
max width is 6 and `bank_extension = 3`), adjacent maximum depth 2 (so the
bank grid's last column sits at elevation `-2.4`). -/
def c8Study : Study :=
  [ { point_name := "Site 1", width := 4, num_measurements := 2,
      distances := [0, 4], depths := [1, 2] },
    { point_name := "Site 2", width := 6, num_measurements := 2,
      distances := [0, 6], depths := [2, 1] } ]

/-- Concrete valid 2-site study of the C2 witness. -/
def c2Study : Study :=
  [ { point_name := "Site 1", width := 2, num_measurements := 2,
      distances := [0, 2], depths := [1, 2] },
    { point_name := "Site 2", width := 3, num_measurements := 2,
      distances := [0, 3], depths := [1, 1] } ]

/-- Study passing the claim's stated precondition whose first site has more
than 3 points with a duplicated distance. -/
def c2DupStudy : Study :=
  [ { point_name := "Site 1", width := 2, num_measurements := 4,
      distances := [0, 0, 1, 2], depths := [1, 1, 1, 1] },
    { point_name := "Site 2", width := 2, num_measurements := 2,
      distances := [0, 2], depths := [1, 1] } ]

/-- Concrete study of the C5 witness (one site with a recorded depth). -/
def c5Study : Study :=
  [ { point_name := "Site 1", width := 2, num_measurements := 2,
      distances := [0, 2], depths := [1, 1] } ]

/-- Two-site study passing the gate whose first site has mismatched array
lengths (3 distances, 1 depth). -/
def c5BadStudy : Study :=
  [ { point_name := "Site 1", width := 2, num_measurements := 3,
      distances := [0, 1, 2], depths := [1] },
    { point_name := "Site 2", width := 2, num_measurements := 2,
      distances := [0, 2], depths := [1, 1] } ]

/-- Concrete one-site study of the C10 witness. -/
def c10Site : Site :=
  { point_name := "Site 1", width := 2, num_measurements := 3,
    distances := [0, 1, 2], depths := [1, 2, 1] }

/-! ## Helper lemmas -/

theorem optMap_length {α β : Type} (f : α → Option β) :
    ∀ (l : List α) (bs : List β), optMap f l = some bs → bs.length = l.length := by
  intro l
  induction l with
  | nil => intro bs h; simp [optMap] at h; simp [← h]
  | cons a t ih =>
    intro bs h
    cases hfa : f a <;> cases hot : optMap f t <;> simp [optMap, hfa, hot] at h
    simp [← h, ih _ hot]

theorem optMap_get? {α β : Type} (f : α → Option β) :
    ∀ (l : List α) (bs : List β), optMap f l = some bs →
      ∀ (j : ℕ), bs[j]? = l[j]?.bind f := by
  intro l
  induction l with
  | nil => intro bs h j; simp [optMap] at h; subst h; simp
  | cons a t ih =>
    intro bs h j
    cases hfa : f a <;> cases hot : optMap f t <;> simp [optMap, hfa, hot] at h
    cases j with
    | zero => simp [← h, hfa]
    | succ k => simpa [← h] using ih _ hot k

theorem optMap_isSome {α β : Type} (f : α → Option β) :
    ∀ (l : List α), (∀ a ∈ l, (f a).isSome) → (optMap f l).isSome := by
  intro l
  induction l with
  | nil => intro _; simp [optMap]
  | cons a t ih =>
    intro h
    obtain ⟨b, hb⟩ := Option.isSome_iff_exists.mp (h a (by simp))
    obtain ⟨bt, hbt⟩ := Option.isSome_iff_exists.mp (ih (fun x hx => h x (by simp [hx])))
    simp [optMap, hb, hbt]

theorem optMap_eq_map {α β : Type} (f : α → Option β) (g : α → β) :
    ∀ (l : List α), (∀ a ∈ l, f a = some (g a)) → optMap f l = some (l.map g) := by
  intro l
  induction l with
  | nil => intro _; simp [optMap]
  | cons a t ih =>
    intro h
    simp [optMap, h a (by simp), ih (fun x hx => h x (by simp [hx]))]

theorem optMap_const {α β : Type} (f : α → Option β) (c : β) (l : List α)
    (h : ∀ a ∈ l, f a = some c) : optMap f l = some (List.replicate l.length c) := by
  rw [optMap_eq_map f (fun _ => c) l h]
  simp

theorem getD_eq_of_forall {l : List ℚ} {c : ℚ} (h : ∀ a ∈ l, a = c) {i : ℕ}
    (hi : i < l.length) (d : ℚ) : l.getD i d = c := by
  rw [List.getD_eq_getElem l d hi]
  exact h _ (l.getElem_mem hi)

theorem getD_zero_of_forall {l : List ℚ} (h : ∀ a ∈ l, a = 0) (i : ℕ) :
    l.getD i 0 = 0 := by
  rcases lt_or_ge i l.length with hi | hi
  · exact getD_eq_of_forall h hi 0
  · rw [List.getD_eq_default _ _ hi]

theorem max?_isSome_of_ne_nil {l : List ℚ} (h : l ≠ []) : (l.max?).isSome := by
  cases hm : l.max? with
  | none => exact absurd (List.max?_eq_none_iff.mp hm) h
  | some _ => rfl

theorem segIdx_pos {xs : List ℚ} (x : ℚ) (h2 : 2 ≤ xs.length) :
    1 ≤ segIdx xs x ∧ segIdx xs x ≤ xs.length - 1 := by
  unfold segIdx
  omega

theorem evalGuard_false (lo hi x v : ℚ) : evalGuard false lo hi x v = some v := by
  simp [evalGuard]

theorem linspace_length (a b : ℚ) (n : ℕ) : (linspace a b n).length = n := by
  rw [linspace, List.length_map, List.length_range]

theorem siteXInterp_length (s : Site) :
    (siteXInterp s).length = numInterpPoints := by
  simp [siteXInterp, linspace_length]

theorem thomasSweep_snd_zero :
    ∀ (rows : List (ℚ × ℚ × ℚ × ℚ)) (prev : ℚ × ℚ),
      (∀ r ∈ rows, r.2.2.2 = 0) → prev.2 = 0 →
      ∀ p ∈ thomasSweep prev rows, p.2 = 0 := by
  intro rows
  induction rows with
  | nil => intro prev _ _ p hp; simp [thomasSweep] at hp
  | cons r t ih =>
    intro prev hr hprev p hp
    obtain ⟨a, b, c, d⟩ := r
    have hd : d = 0 := hr (a, b, c, d) (by simp)
    simp only [thomasSweep] at hp
    have hd1 : (d - a * prev.2) / (b - a * prev.1) = 0 := by
      rw [hd, hprev, mul_zero, sub_zero, zero_div]
    rcases List.mem_cons.mp hp with h | h
    · rw [h]; exact hd1
    · exact ih _ (fun q hq => hr q (by simp [hq])) hd1 p h

theorem thomasBack_zero :
    ∀ (l : List (ℚ × ℚ)), (∀ p ∈ l, p.2 = 0) → ∀ m ∈ thomasBack l, m = 0 := by
  intro l
  induction l with
  | nil => intro _ m hm; simp [thomasBack] at hm
  | cons p t ih =>
    intro h m hm
    obtain ⟨c1, d1⟩ := p
    have hd1 : d1 = 0 := h (c1, d1) (by simp)
    have hrest : ∀ q ∈ t, (q : ℚ × ℚ).2 = 0 := fun q hq => h q (by simp [hq])
    simp only [thomasBack] at hm
    cases hb : thomasBack t with
    | nil => rw [hb] at hm; simp at hm; rw [hm, hd1]
    | cons x xs =>
      rw [hb] at hm
      have hx : x = 0 := ih hrest x (by rw [hb]; simp)
      rcases List.mem_cons.mp hm with h1 | h1
      · rw [h1, hd1, hx]; ring
      · exact ih hrest m (by rw [hb]; exact h1)

theorem splineRows_rhs_zero {sx sy : List ℚ} {d : ℚ}
    (hlen : sy.length = sx.length) (hconst : ∀ y ∈ sy, y = d) :
    ∀ r ∈ splineRows sx sy, r.2.2.2 = 0 := by
  intro r hr
  simp only [splineRows, List.mem_map, List.mem_range] at hr
  obtain ⟨k, hk, hkr⟩ := hr
  subst hkr
  simp only [splineRhsRow]
  have h1 : sy.getD (k + 1 - 1) 0 = d := getD_eq_of_forall hconst (by omega) 0
  have h2 : sy.getD (k + 1) 0 = d := getD_eq_of_forall hconst (by omega) 0
  have h3 : sy.getD (k + 1 + 1) 0 = d := getD_eq_of_forall hconst (by omega) 0
  rw [h1, h2, h3]
  simp

theorem splineMoments_zero {sx sy : List ℚ} {d : ℚ}
    (hlen : sy.length = sx.length) (hconst : ∀ y ∈ sy, y = d) :
    ∀ m ∈ splineMoments sx sy, m = 0 := by
  intro m hm
  simp only [splineMoments, List.mem_cons, List.mem_append, List.mem_singleton] at hm
  rcases hm with h | h | h
  · exact h
  · exact thomasBack_zero _
      (thomasSweep_snd_zero _ _ (splineRows_rhs_zero hlen hconst) rfl) m h
  · simpa using h

theorem sortPairs_perm (ps : List (ℚ × ℚ)) : (sortPairs ps).Perm ps :=
  List.perm_insertionSort _ ps

theorem sortPairs_sorted_fst (ps : List (ℚ × ℚ)) :
    (sortPairs ps).Pairwise (fun p q => p.1 ≤ q.1) :=
  List.sorted_insertionSort _ ps

theorem sortedXs_perm (xs ys : List ℚ) (h : xs.length ≤ ys.length) :
    (sortedXs xs ys).Perm xs := by
  have hp := (sortPairs_perm (xs.zip ys)).map Prod.fst
  rwa [List.map_fst_zip xs ys h] at hp

theorem sortedXs_length (xs ys : List ℚ) (h : xs.length ≤ ys.length) :
    (sortedXs xs ys).length = xs.length :=
  (sortedXs_perm xs ys h).length_eq

theorem sortedYs_length (xs ys : List ℚ) :
    (sortedYs xs ys).length = (sortedXs xs ys).length := by
  simp [sortedXs, sortedYs]

theorem sortedYs_mem (xs ys : List ℚ) {y : ℚ} (hy : y ∈ sortedYs xs ys) : y ∈ ys := by
  simp only [sortedYs, List.mem_map] at hy
  obtain ⟨p, hp, hpy⟩ := hy
  exact hpy ▸ (List.of_mem_zip ((sortPairs_perm _).mem_iff.mp hp)).2

theorem sortedXs_pairwise_le (xs ys : List ℚ) :
    (sortedXs xs ys).Pairwise (· ≤ ·) :=
  List.Pairwise.map Prod.fst (fun _ _ h => h) (sortPairs_sorted_fst (xs.zip ys))

theorem chain_lt_of_sorted_nodup {l : List ℚ} (hs : l.Pairwise (· ≤ ·))
    (hn : l.Nodup) : l.Chain' (· < ·) :=
  ((hs.and hn).imp (fun h => lt_of_le_of_ne h.1 h.2)).chain'

theorem sortedXs_chain_lt {xs ys : List ℚ} (hlen : xs.length ≤ ys.length)
    (hnd : xs.Nodup) : (sortedXs xs ys).Chain' (· < ·) :=
  chain_lt_of_sorted_nodup (sortedXs_pairwise_le xs ys)
    ((sortedXs_perm xs ys hlen).symm.nodup hnd)

theorem strictIncr_iff : ∀ (l : List ℚ), strictIncr l = true ↔ l.Chain' (· < ·)
  | [] => by simp [strictIncr]
  | [a] => by simp [strictIncr]
  | a :: b :: t => by
    rw [strictIncr, List.chain'_cons, ← strictIncr_iff (b :: t)]
    by_cases h : a < b
    · simp [h]
    · simp [h]

theorem linEval_const {sx sy : List ℚ} {d : ℚ} (hlen : sy.length = sx.length)
    (h2 : 2 ≤ sx.length) (hconst : ∀ y ∈ sy, y = d) (x : ℚ) :
    linEval sx sy x = d := by
  obtain ⟨h1, hle⟩ := @segIdx_pos sx x h2
  simp only [linEval]
  rw [getD_eq_of_forall hconst (by omega) 0, getD_eq_of_forall hconst (by omega) 0]
  simp

theorem cubicEval_const {sx sy ms : List ℚ} {d : ℚ} (hlen : sy.length = sx.length)
    (h4 : 4 ≤ sx.length) (hconst : ∀ y ∈ sy, y = d)
    (hms : ∀ m ∈ ms, m = 0) (hchain : sx.Chain' (· < ·)) (x : ℚ) :
    cubicEval sx sy ms x = d := by
  have h2 : 2 ≤ sx.length := by omega
  obtain ⟨h1, hle⟩ := @segIdx_pos sx x h2
  have hlo1 : segIdx sx x - 1 + 1 = segIdx sx x := by omega
  have hlt : sx.getD (segIdx sx x - 1) 0 < sx.getD (segIdx sx x) 0 := by
    have hc := List.chain'_iff_get.mp hchain (segIdx sx x - 1) (by omega)
    rw [List.getD_eq_get _ _ (by omega : segIdx sx x - 1 < sx.length),
      List.getD_eq_get _ _ (by omega : segIdx sx x < sx.length)]
    simpa [hlo1] using hc
  have hylo : sy.getD (segIdx sx x - 1) 0 = d := getD_eq_of_forall hconst (by omega) 0
  have hyhi : sy.getD (segIdx sx x) 0 = d := getD_eq_of_forall hconst (by omega) 0
  have hmlo : ms.getD (segIdx sx x - 1) 0 = 0 := getD_zero_of_forall hms _
  have hmhi : ms.getD (segIdx sx x) 0 = 0 := getD_zero_of_forall hms _
  have hne : sx.getD (segIdx sx x) 0 - sx.getD (segIdx sx x - 1) 0 ≠ 0 :=
    sub_ne_zero.mpr (ne_of_gt hlt)
  simp only [cubicEval, hylo, hyhi, hmlo, hmhi, zero_mul, zero_div, zero_add,
    mul_zero, sub_zero]
  rw [div_add_div_same, ← mul_add]
  have harith : sx.getD (segIdx sx x) 0 - x + (x - sx.getD (segIdx sx x - 1) 0) =
      sx.getD (segIdx sx x) 0 - sx.getD (segIdx sx x - 1) 0 := by ring
  rw [harith, mul_div_assoc, div_self hne, mul_one]

theorem interp1d_linear_eq {xs ys : List ℚ} {be : Bool}
    (hlen : xs.length = ys.length) (h2 : 2 ≤ xs.length) :
    interp1d xs ys InterpKind.linear be =
      some (fun x =>
        evalGuard be ((sortedXs xs ys).getD 0 0)
          ((sortedXs xs ys).getD ((sortedXs xs ys).length - 1) 0) x
          (linEval (sortedXs xs ys) (sortedYs xs ys) x)) := by
  unfold interp1d
  rw [if_pos ⟨hlen, h2, fun h => absurd h (by decide)⟩]

theorem interp1d_cubic_eq {xs ys : List ℚ} {be : Bool}
    (hlen : xs.length = ys.length) (h4 : 4 ≤ xs.length)
    (hch : (sortedXs xs ys).Chain' (· < ·)) :
    interp1d xs ys InterpKind.cubic be =
      some (fun x =>
        evalGuard be ((sortedXs xs ys).getD 0 0)
          ((sortedXs xs ys).getD ((sortedXs xs ys).length - 1) 0) x
          (cubicEval (sortedXs xs ys) (sortedYs xs ys)
            (splineMoments (sortedXs xs ys) (sortedYs xs ys)) x)) := by
  unfold interp1d
  rw [if_pos ⟨hlen, by omega, fun _ => ⟨h4, (strictIncr_iff _).mpr hch⟩⟩]

theorem interp1d_isSome {xs ys : List ℚ} {kind : InterpKind} {be : Bool}
    (hlen : xs.length = ys.length) (h2 : 2 ≤ xs.length)
    (hcub : kind = InterpKind.cubic → 4 ≤ xs.length ∧ xs.Nodup) :
    (interp1d xs ys kind be).isSome := by
  cases kind with
  | linear => rw [interp1d_linear_eq hlen h2]; rfl
  | cubic =>
    obtain ⟨h4, hnd⟩ := hcub rfl
    rw [interp1d_cubic_eq hlen h4 (sortedXs_chain_lt (le_of_eq hlen) hnd)]
    rfl

theorem interp1d_eval_isSome {xs ys : List ℚ} {kind : InterpKind}
    {f : ℚ → Option ℚ} (h : interp1d xs ys kind false = some f) (x : ℚ) :
    (f x).isSome := by
  unfold interp1d at h
  by_cases hc : xs.length = ys.length ∧ 2 ≤ xs.length ∧
      (kind = InterpKind.cubic →
        4 ≤ xs.length ∧ strictIncr (sortedXs xs ys) = true)
  · rw [if_pos hc] at h
    cases kind <;>
      (simp only [Option.some.injEq] at h
       rw [← h]
       simp [evalGuard_false])
  · rw [if_neg hc] at h
    exact absurd h (by simp)

theorem interp1d_const_eval {xs ys : List ℚ} {d : ℚ} {kind : InterpKind}
    (hlen : xs.length = ys.length) (h2 : 2 ≤ xs.length)
    (hcub : kind = InterpKind.cubic → 4 ≤ xs.length ∧ xs.Nodup)
    (hconst : ∀ y ∈ ys, y = d) :
    ∃ f, interp1d xs ys kind false = some f ∧ ∀ x, f x = some d := by
  have hsy : ∀ y ∈ sortedYs xs ys, y = d := fun y hy => hconst y (sortedYs_mem xs ys hy)
  have hsl : (sortedYs xs ys).length = (sortedXs xs ys).length := sortedYs_length xs ys
  have hxl : (sortedXs xs ys).length = xs.length := sortedXs_length xs ys (le_of_eq hlen)
  cases kind with
  | linear =>
    refine ⟨_, interp1d_linear_eq hlen h2, fun x => ?_⟩
    rw [evalGuard_false, linEval_const hsl (by omega) hsy x]
  | cubic =>
    obtain ⟨h4, hnd⟩ := hcub rfl
    have hch := sortedXs_chain_lt (le_of_eq hlen) hnd
    refine ⟨_, interp1d_cubic_eq hlen h4 hch, fun x => ?_⟩
    rw [evalGuard_false,
      cubicEval_const hsl (by omega) hsy (splineMoments_zero hsl hsy) hch x]

theorem siteZInterp_isSome (s : Site) (hd : s.depths ≠ [])
    (hlen : s.distances.length = s.depths.length)
    (hnd : 3 < s.distances.length → s.distances.Nodup) :
    (siteZInterp s).isSome := by
  unfold siteZInterp
  by_cases h2 : 2 ≤ s.distances.length
  · rw [if_pos h2]
    have hksome : (interp1d s.distances s.depths
        (if 3 < s.distances.length then InterpKind.cubic else InterpKind.linear)
        false).isSome := by
      apply interp1d_isSome hlen h2
      intro hkc
      by_cases h3 : 3 < s.distances.length
      · exact ⟨by omega, hnd h3⟩
      · rw [if_neg h3] at hkc; exact absurd hkc (by decide)
    obtain ⟨f, hf⟩ := Option.isSome_iff_exists.mp hksome
    rw [hf]
    apply optMap_isSome
    intro x _
    have h3 := interp1d_eval_isSome hf x
    cases hfx : f x with
    | none => rw [hfx] at h3; exact absurd h3 (by simp)
    | some v => simp [hfx]
  · rw [if_neg h2]
    cases hdep : s.depths with
    | nil => exact absurd hdep hd
    | cons a t => simp

theorem siteZInterp_const (s : Site) (d : ℚ) (hd : s.depths ≠ [])
    (hlen : s.distances.length = s.depths.length)
    (hconst : ∀ y ∈ s.depths, y = d) (hnd : s.distances.Nodup) :
    siteZInterp s = some (List.replicate numInterpPoints (-d)) := by
  unfold siteZInterp
  by_cases h2 : 2 ≤ s.distances.length
  · rw [if_pos h2]
    have hcub : (if 3 < s.distances.length then InterpKind.cubic
        else InterpKind.linear) = InterpKind.cubic →
        4 ≤ s.distances.length ∧ s.distances.Nodup := by
      intro hkc
      by_cases h3 : 3 < s.distances.length
      · exact ⟨by omega, hnd⟩
      · rw [if_neg h3] at hkc; exact absurd hkc (by decide)
    obtain ⟨f, hf, hfx⟩ := interp1d_const_eval hlen h2 hcub hconst
    rw [hf]
    have hall : ∀ x ∈ siteXInterp s, ((fun x => (f x).map (fun z => -z)) x) =
        some (-d) := by
      intro x _
      simp [hfx x]
    exact (optMap_const _ _ _ hall).trans (by rw [siteXInterp_length])
  · rw [if_neg h2]
    cases hdep : s.depths with
    | nil => exact absurd hdep hd
    | cons a t =>
      have ha : a = d := hconst a (by rw [hdep]; simp)
      simp [ha]

theorem siteRows_eq (i : ℕ) (s : Site)
    (h : s.distances.length = s.depths.length) :
    siteRows i s = some ((s.distances.zip s.depths).enum.map (fun q =>
      { siteNumber := i + 1, siteName := s.point_name, pointNumber := q.1 + 1, distance := q.2.1, depth := q.2.2 })) := by
  unfold siteRows
  refine (optMap_eq_map _
    (fun j => ({ siteNumber := i + 1, siteName := s.point_name, pointNumber := j + 1, distance := s.distances.getD j 0, depth := s.depths.getD j 0 } : Row)) _ ?_).trans ?_
  · intro j hj
    rw [List.mem_range] at hj
    have hd : s.distances.get? j = some (s.distances.getD j 0) := by
      rw [List.getD_eq_getElem _ _ hj, List.get?_eq_getElem?,
        List.getElem?_eq_getElem hj]
    have hp : s.depths.get? j = some (s.depths.getD j 0) := by
      rw [List.getD_eq_getElem _ _ (by omega), List.get?_eq_getElem?,
        List.getElem?_eq_getElem (by omega : j < s.depths.length)]
    rw [hd, hp]
  · congr 1
    apply List.ext_get?
    intro j
    rcases lt_or_ge j s.distances.length with hj | hj
    · rw [List.get?_map, List.get?_range hj, List.get?_map, List.get?_enum]
      have hzip : (s.distances.zip s.depths).get? j =
          some (s.distances.getD j 0, s.depths.getD j 0) := by
        rw [List.get?_zip_eq_some]
        constructor
        · show s.distances.get? j = some (s.distances.getD j 0)
          rw [List.getD_eq_getElem _ _ hj, List.get?_eq_getElem?,
            List.getElem?_eq_getElem hj]
        · show s.depths.get? j = some (s.depths.getD j 0)
          rw [List.getD_eq_getElem _ _ (by omega), List.get?_eq_getElem?,
            List.getElem?_eq_getElem (by omega : j < s.depths.length)]
      rw [hzip]
      rfl
    · rw [List.get?_map, List.get?_map]
      have h1 : (List.range s.distances.length).get? j = none := by
        rw [List.get?_eq_none, List.length_range]
        exact hj
      have h2 : (s.distances.zip s.depths).enum.get? j = none := by
        rw [List.get?_eq_none, List.enum_length, List.length_zip]
        exact le_trans inf_le_left hj
      rw [h1, h2]
      rfl

/-! ## Claim theorems -/

/-- C1: for every valid Site (positive width, non-empty arrays of equal
length), the cross-section builder's river-bed trace consists of exactly the
points `(distances[j], -depths[j])` in input order: its x array is
`distances` itself and its y array is the pointwise negation of `depths`,
with no sorting, reordering, deduplication or insertion of extra points,
even when `distances` is not sorted ascending. -/
theorem c1_riverbed_points (s : Site) (hw : 0 < s.width)
    (hne : s.distances ≠ []) (hlen : s.distances.length = s.depths.length) :
    ∃ t, (crossSectionTraces s)[2]? = some t ∧ t.name = "River Bed" ∧
      t.x = s.distances ∧ t.y = s.depths.map (fun dep => -dep) ∧
      t.x.length = s.distances.length ∧ t.y.length = s.distances.length ∧
      (∀ (j : ℕ), t.x[j]? = s.distances[j]?) ∧
      (∀ (j : ℕ), t.y[j]? = s.depths[j]?.map (fun dep => -dep)) := by
  refine ⟨{ name := "River Bed", x := s.distances, y := s.depths.map (fun dep => -dep) },
    rfl, rfl, rfl, rfl, rfl, by simp [hlen], fun j => rfl, fun j => ?_⟩
  simp

/-- Witness discharging C1's hypotheses at `c1Site`. -/
theorem c1_riverbed_points_witness :
    (0 < c1Site.width ∧ c1Site.distances ≠ [] ∧
      c1Site.distances.length = c1Site.depths.length) ∧
    ∃ t, (crossSectionTraces c1Site)[2]? = some t ∧ t.name = "River Bed" ∧
      t.x = c1Site.distances ∧ t.y = c1Site.depths.map (fun dep => -dep) ∧
      t.x.length = c1Site.distances.length ∧
      t.y.length = c1Site.distances.length ∧
      (∀ (j : ℕ), t.x[j]? = c1Site.distances[j]?) ∧
      (∀ (j : ℕ), t.y[j]? = c1Site.depths[j]?.map (fun dep => -dep)) :=
  ⟨⟨by decide, by decide, by decide⟩,
    c1_riverbed_points c1Site (by decide) (by decide) (by decide)⟩

/-- C3: whenever the per-site resampling step produces output, it produces
exactly `M = 30` x-positions, evenly spaced over `[0, width]` (the j-th is
`width * j / 29`), and exactly `M = 30` elevation values, regardless of the
number of measured points. -/
theorem c3_resample_count (s : Site) (zs : List ℚ)
    (h : siteZInterp s = some zs) :
    (siteXInterp s).length = numInterpPoints ∧ numInterpPoints = 30 ∧
    zs.length = numInterpPoints ∧
    ∀ (j : ℕ), j < numInterpPoints →
      (siteXInterp s).getD j 0 = s.width * (j : ℚ) / 29 := by
  refine ⟨siteXInterp_length s, rfl, ?_, ?_⟩
  · unfold siteZInterp at h
    by_cases h2 : 2 ≤ s.distances.length
    · rw [if_pos h2] at h
      cases hi : interp1d s.distances s.depths
          (if 3 < s.distances.length then InterpKind.cubic else InterpKind.linear)
          false with
      | none => rw [hi] at h; exact absurd h (by simp)
      | some f =>
        rw [hi] at h
        rw [optMap_length _ _ _ h, siteXInterp_length]
    · rw [if_neg h2] at h
      cases hdep : s.depths.get? 0 <;> rw [hdep] at h
      · exact absurd h (by simp)
      · simp only [Option.some.injEq] at h
        rw [← h]
        simp
  · intro j hj
    have hj30 : j < 30 := hj
    unfold siteXInterp linspace
    rw [List.getD_eq_getElem _ _
      (by rw [List.length_map, List.length_range]; exact hj)]
    rw [List.getElem_map, List.getElem_range]
    norm_num [numInterpPoints]

/-- Witness discharging C3's hypothesis at `c3Site`: the interpolation
succeeds there and its output has the stated shape. -/
theorem c3_resample_count_witness :
    siteZInterp c3Site = some (List.replicate 30 (-1)) ∧
    ((siteXInterp c3Site).length = numInterpPoints ∧ numInterpPoints = 30 ∧
      (List.replicate 30 (-1 : ℚ)).length = numInterpPoints ∧
      ∀ (j : ℕ), j < numInterpPoints →
        (siteXInterp c3Site).getD j 0 = c3Site.width * (j : ℚ) / 29) :=
  ⟨by decide, c3_resample_count c3Site (List.replicate 30 (-1)) (by decide)⟩

/-- C4 (amended): for a valid site (non-empty depths, equal-length arrays)
whose distances are pairwise distinct and whose depths are all equal to a
single value `d`, the resampled profile is constant, equal to `-d` at every
one of the `M = 30` resampled positions. -/
theorem c4_constant_profile (s : Site) (d : ℚ) (hd : s.depths ≠ [])
    (hlen : s.distances.length = s.depths.length)
    (hconst : ∀ y ∈ s.depths, y = d) (hnd : s.distances.Nodup) :
    siteZInterp s = some (List.replicate numInterpPoints (-d)) :=
  siteZInterp_const s d hd hlen hconst hnd

/-- Witness discharging C4's hypotheses at the spec's example
`distances=[0,1,2], depths=[1,1,1]`. -/
theorem c4_constant_profile_witness :
    (c4Site.depths ≠ [] ∧ c4Site.distances.length = c4Site.depths.length ∧
      (∀ y ∈ c4Site.depths, y = 1) ∧ c4Site.distances.Nodup) ∧
    siteZInterp c4Site = some (List.replicate numInterpPoints (-1)) :=
  ⟨⟨by decide, by decide, by decide, by decide⟩,
    c4_constant_profile c4Site 1 (by decide) (by decide) (by decide) (by decide)⟩

/-- Counterexample to C4 as stated: `c4DupSite` has all depths equal to 1
(and valid lengths), yet the interpolation raises (`none`) instead of
producing the constant profile, because the cubic interpolant chosen for its
4 points rejects the duplicated distance 0. -/
theorem c4_counterexample :
    c4DupSite.depths ≠ [] ∧ (∀ y ∈ c4DupSite.depths, y = 1) ∧
    c4DupSite.distances.length = c4DupSite.depths.length ∧
    siteZInterp c4DupSite = none ∧
    siteZInterp c4DupSite ≠ some (List.replicate numInterpPoints (-1)) :=
  ⟨by decide, by decide, by decide, by decide, by decide⟩

/-- C6: changing site `i`'s measurement count (to a different value) empties
exactly site `i`'s `distances`/`depths`, stores the new width and count there
while keeping its name, and leaves every other site (width, name, distances,
depths) unchanged. -/
theorem c6_reset_frame (study : Study) (i : ℕ) (s : Site) (w : ℚ) (n : ℕ)
    (hs : study.get? i = some s) (hn : n ≠ s.num_measurements) :
    (applySiteInput study i w n).length = study.length ∧
    (applySiteInput study i w n).get? i =
      some { s with width := w, num_measurements := n, distances := [], depths := [] } ∧
    ∀ (j : ℕ), j ≠ i → (applySiteInput study i w n).get? j = study.get? j := by
  have happ : applySiteInput study i w n = study.set i (updateWidthNum s w n) := by
    unfold applySiteInput
    rw [hs]
  have hupd : updateWidthNum s w n =
      { s with width := w, num_measurements := n, distances := [], depths := [] } := by
    unfold updateWidthNum
    rw [if_pos (Or.inr hn), if_pos hn]
  rw [happ, hupd]
  refine ⟨by simp, ?_, ?_⟩
  · rw [List.get?_set_eq, hs]
    rfl
  · intro j hj
    exact List.get?_set_ne _ _ (Ne.symm hj)

/-- Witness discharging C6's hypotheses on `c6Study` at site 1 with the
count changed from 3 to 5. -/
theorem c6_reset_frame_witness :
    (c6Study.get? 1 = some { point_name := "Meander", width := 3, num_measurements := 3, distances := [0, 2, 3], depths := [1, 3, 1] } ∧ (5 : ℕ) ≠ 3) ∧
    ((applySiteInput c6Study 1 3 5).length = c6Study.length ∧
      (applySiteInput c6Study 1 3 5).get? 1 =
        some { point_name := "Meander", width := 3, num_measurements := 5, distances := [], depths := [] } ∧
      ∀ (j : ℕ), j ≠ 1 → (applySiteInput c6Study 1 3 5).get? j = c6Study.get? j) :=
  ⟨⟨by decide, by decide⟩,
    c6_reset_frame c6Study 1
      { point_name := "Meander", width := 3, num_measurements := 3, distances := [0, 2, 3], depths := [1, 3, 1] }
      3 5 (by decide) (by decide)⟩

/-- C9: changing only site `i`'s width (measurement count unchanged) stores
the new width but leaves that site's name and its `distances`/`depths`
arrays untouched, and leaves every other site unchanged; in particular a
distance exceeding the new width stays in the array, violating the
`distances ⊆ [0, width]` invariant. -/
theorem c9_width_only (study : Study) (i : ℕ) (s : Site) (w : ℚ)
    (hs : study.get? i = some s) (hw : w ≠ s.width) :
    (applySiteInput study i w s.num_measurements).get? i =
      some { s with width := w } ∧
    ({ s with width := w } : Site).distances = s.distances ∧
    ({ s with width := w } : Site).depths = s.depths ∧
    ({ s with width := w } : Site).point_name = s.point_name ∧
    (∀ (j : ℕ), j ≠ i →
      (applySiteInput study i w s.num_measurements).get? j = study.get? j) ∧
    ∀ x ∈ s.distances, w < x →
      x ∈ ({ s with width := w } : Site).distances ∧ ¬ x ≤ w := by
  have happ : applySiteInput study i w s.num_measurements =
      study.set i (updateWidthNum s w s.num_measurements) := by
    unfold applySiteInput
    rw [hs]
  have hupd : updateWidthNum s w s.num_measurements = { s with width := w } := by
    unfold updateWidthNum
    rw [if_pos (Or.inl hw), if_neg (fun h => h rfl)]
  rw [happ, hupd]
  refine ⟨?_, rfl, rfl, rfl, ?_, ?_⟩
  · rw [List.get?_set_eq, hs]
    rfl
  · intro j hj
    exact List.get?_set_ne _ _ (Ne.symm hj)
  · intro x hx hxw
    exact ⟨hx, not_le.mpr hxw⟩

/-- Witness discharging C9's hypotheses on `c9Study` at site 0 with the
width changed from 2 to 1. -/
theorem c9_width_only_witness :
    (c9Study.get? 0 = some { point_name := "Upstream", width := 2, num_measurements := 3, distances := [0, 1, 2], depths := [1, 2, 1] } ∧ (1 : ℚ) ≠ 2) ∧
    ((applySiteInput c9Study 0 1 3).get? 0 =
        some { point_name := "Upstream", width := 1, num_measurements := 3, distances := [0, 1, 2], depths := [1, 2, 1] } ∧
      (2 : ℚ) ∈ [(0 : ℚ), 1, 2] ∧ ¬ (2 : ℚ) ≤ 1) := by
  have h := c9_width_only c9Study 0
    { point_name := "Upstream", width := 2, num_measurements := 3, distances := [0, 1, 2], depths := [1, 2, 1] } 1 (by decide) (by decide)
  exact ⟨⟨by decide, by decide⟩, h.1,
    (h.2.2.2.2.2 2 (by decide) (by decide)).1,
    (h.2.2.2.2.2 2 (by decide) (by decide)).2⟩

/-- C7: under the data-model invariant (equal-length arrays per site), the
tabular export has one row `(siteNumber, siteName, pointNumber, distance,
depth)` per measurement point, its row count is the sum over all sites of
`len(distances)`, and rows are ordered site-ascending then point-ascending. -/
theorem c7_table_rows (study : Study)
    (hlen : ∀ s ∈ study, s.distances.length = s.depths.length) :
    ∃ rows, tableData study = some rows ∧
      rows.length = (study.map (fun s => s.distances.length)).sum ∧
      rows = study.enum.flatMap (fun p =>
        (p.2.distances.zip p.2.depths).enum.map (fun q =>
          { siteNumber := p.1 + 1, siteName := p.2.point_name, pointNumber := q.1 + 1, distance := q.2.1, depth := q.2.2 })) := by
  have hsnd : ∀ p ∈ study.enum, p.2 ∈ study := by
    intro p hp
    have hm := List.mem_map_of_mem Prod.snd hp
    rwa [List.enum_map_snd] at hm
  have hblock : ∀ p ∈ study.enum, siteRows p.1 p.2 =
      some ((p.2.distances.zip p.2.depths).enum.map (fun q =>
        ({ siteNumber := p.1 + 1, siteName := p.2.point_name, pointNumber := q.1 + 1, distance := q.2.1, depth := q.2.2 } : Row))) :=
    fun p hp => siteRows_eq p.1 p.2 (hlen p.2 (hsnd p hp))
  have htd : tableData study = some (study.enum.flatMap (fun p =>
      (p.2.distances.zip p.2.depths).enum.map (fun q =>
        { siteNumber := p.1 + 1, siteName := p.2.point_name, pointNumber := q.1 + 1, distance := q.2.1, depth := q.2.2 }))) := by
    unfold tableData
    rw [optMap_eq_map _ _ _ hblock, Option.map_some', ← List.flatMap_def]
  refine ⟨_, htd, ?_, rfl⟩
  rw [List.length_flatMap]
  have hmapeq : List.map (List.length ∘ (fun p : ℕ × Site =>
      (p.2.distances.zip p.2.depths).enum.map (fun q =>
        ({ siteNumber := p.1 + 1, siteName := p.2.point_name, pointNumber := q.1 + 1, distance := q.2.1, depth := q.2.2 } : Row))))
      study.enum = List.map (fun p : ℕ × Site => p.2.distances.length) study.enum := by
    apply List.map_congr_left
    intro p hp
    simp only [Function.comp_apply, List.length_map, List.enum_length,
      List.length_zip, ← hlen p.2 (hsnd p hp)]
    exact min_self _
  rw [hmapeq]
  conv_rhs => rw [← List.enum_map_snd study, List.map_map]
  rfl

/-- Witness discharging C7's hypothesis at `c7Study`. -/
theorem c7_table_rows_witness :
    (∀ s ∈ c7Study, s.distances.length = s.depths.length) ∧
    ∃ rows, tableData c7Study = some rows ∧
      rows.length = (c7Study.map (fun s => s.distances.length)).sum ∧
      rows = c7Study.enum.flatMap (fun p =>
        (p.2.distances.zip p.2.depths).enum.map (fun q =>
          { siteNumber := p.1 + 1, siteName := p.2.point_name, pointNumber := q.1 + 1, distance := q.2.1, depth := q.2.2 })) :=
  ⟨by decide, c7_table_rows c7Study (by decide)⟩

/-- C8: for every study with at least two sites (each with a recorded depth)
and every consecutive pair `(i, i+1)`, the left-bank mesh is a 3x6 grid built
with `bank_extension = 0.5 * (maximum width over the whole study)`,
`bank_height = 0.5` and `max_depth_section =` the greater of the two adjacent
sites' maximum depths; every row of the grid starts at `x = 0`, elevation `0`
(first column) and ends at `x = 0`, elevation `-max_depth_section * 1.2`
(last column). -/
theorem c8_left_bank_grid (study : Study) (i : ℕ) (curr next : Site)
    (hN : 2 ≤ study.length)
    (hall : ∀ s ∈ study, s.depths ≠ [])
    (hc : study.get? i = some curr) (hn : study.get? (i + 1) = some next) :
    ∃ mw mc mn ps,
      (study.map Site.width).max? = some mw ∧
      curr.depths.max? = some mc ∧ next.depths.max? = some mn ∧
      maxDepthSection curr next = some (max mc mn) ∧
      bank_height = 0.5 ∧
      pairSurfaces study (mw * 0.5) bank_height = some ps ∧
      ps.get? i = some (leftBankSurface i (mw * 0.5) bank_height (max mc mn),
        rightBankSurface i curr.width next.width (mw * 0.5) bank_height (max mc mn),
        bottomSurface i curr.width next.width (max mc mn)) ∧
      (leftBankSurface i (mw * 0.5) bank_height (max mc mn)).x.length = 3 ∧
      (leftBankSurface i (mw * 0.5) bank_height (max mc mn)).z.length = 3 ∧
      (∀ row ∈ (leftBankSurface i (mw * 0.5) bank_height (max mc mn)).x,
        row.length = 6 ∧ row.get? 0 = some 0 ∧ row.get? 5 = some 0) ∧
      (∀ row ∈ (leftBankSurface i (mw * 0.5) bank_height (max mc mn)).z,
        row.length = 6 ∧ row.get? 0 = some 0 ∧
          row.get? 5 = some (-(max mc mn) * 1.2)) := by
  have hi1 : i + 1 < study.length := (List.get?_eq_some.mp hn).1
  obtain ⟨mw, hmw⟩ : ∃ mw, (study.map Site.width).max? = some mw := by
    apply Option.isSome_iff_exists.mp
    apply max?_isSome_of_ne_nil
    intro h0
    rw [List.map_eq_nil] at h0
    rw [h0] at hN
    exact absurd hN (by decide)
  obtain ⟨mc, hmc⟩ := Option.isSome_iff_exists.mp
    (max?_isSome_of_ne_nil (hall curr (List.get?_mem hc)))
  obtain ⟨mn, hmn⟩ := Option.isSome_iff_exists.mp
    (max?_isSome_of_ne_nil (hall next (List.get?_mem hn)))
  have hmds : maxDepthSection curr next = some (max mc mn) := by
    unfold maxDepthSection
    rw [hmc, hmn]
  have hsome : (pairSurfaces study (mw * 0.5) bank_height).isSome := by
    unfold pairSurfaces
    apply optMap_isSome
    intro k hk
    rw [List.mem_range] at hk
    cases hck : study.get? k with
    | none => rw [List.get?_eq_none] at hck; omega
    | some ck =>
      cases hck1 : study.get? (k + 1) with
      | none => rw [List.get?_eq_none] at hck1; omega
      | some ck1 =>
        obtain ⟨a, ha⟩ := Option.isSome_iff_exists.mp
          (max?_isSome_of_ne_nil (hall ck (List.get?_mem hck)))
        obtain ⟨b, hb⟩ := Option.isSome_iff_exists.mp
          (max?_isSome_of_ne_nil (hall ck1 (List.get?_mem hck1)))
        simp [maxDepthSection, ha, hb]
  obtain ⟨ps, hps⟩ := Option.isSome_iff_exists.mp hsome
  have hps2 : optMap (fun k =>
      match study.get? k, study.get? (k + 1) with
      | some curr, some next =>
        (maxDepthSection curr next).map (fun mds =>
          (leftBankSurface k (mw * 0.5) bank_height mds,
           rightBankSurface k curr.width next.width (mw * 0.5) bank_height mds,
           bottomSurface k curr.width next.width mds))
      | _, _ => none)
      (List.range (study.length - 1)) = some ps := hps
  have hget := optMap_get? _ _ _ hps2 i
  refine ⟨mw, mc, mn, ps, hmw, hmc, hmn, hmds, rfl, hps, ?_, rfl, rfl, ?_, ?_⟩
  · rw [List.get?_eq_getElem?, hget,
      List.getElem?_range (by omega : i < study.length - 1)]
    show (match study.get? i, study.get? (i + 1) with
      | some curr, some next =>
        (maxDepthSection curr next).map (fun mds =>
          (leftBankSurface i (mw * 0.5) bank_height mds,
           rightBankSurface i curr.width next.width (mw * 0.5) bank_height mds,
           bottomSurface i curr.width next.width mds))
      | _, _ => none) = _
    rw [hc, hn]
    show (maxDepthSection curr next).map _ = _
    rw [hmds]
    rfl
  · intro row hrow
    simp only [leftBankSurface, List.mem_cons, List.not_mem_nil, or_false] at hrow
    rcases hrow with h | h | h
    all_goals (rw [h]; exact ⟨rfl, rfl, rfl⟩)
  · intro row hrow
    simp only [leftBankSurface, List.mem_cons, List.not_mem_nil, or_false] at hrow
    rcases hrow with h | h | h
    all_goals (rw [h]; exact ⟨rfl, rfl, rfl⟩)

/-- Witness discharging C8's hypotheses at `c8Study`, pair (0, 1). -/
theorem c8_left_bank_grid_witness :
    (2 ≤ c8Study.length ∧ (∀ s ∈ c8Study, s.depths ≠ []) ∧
      c8Study.get? 0 = some { point_name := "Site 1", width := 4, num_measurements := 2, distances := [0, 4], depths := [1, 2] } ∧
      c8Study.get? 1 = some { point_name := "Site 2", width := 6, num_measurements := 2, distances := [0, 6], depths := [2, 1] }) ∧
    ∃ mw mc mn ps,
      (c8Study.map Site.width).max? = some mw ∧
      ({ point_name := "Site 1", width := 4, num_measurements := 2, distances := [0, 4], depths := [1, 2] } : Site).depths.max? = some mc ∧
      ({ point_name := "Site 2", width := 6, num_measurements := 2, distances := [0, 6], depths := [2, 1] } : Site).depths.max? = some mn ∧
      maxDepthSection { point_name := "Site 1", width := 4, num_measurements := 2, distances := [0, 4], depths := [1, 2] } { point_name := "Site 2", width := 6, num_measurements := 2, distances := [0, 6], depths := [2, 1] } = some (max mc mn) ∧
      bank_height = 0.5 ∧
      pairSurfaces c8Study (mw * 0.5) bank_height = some ps ∧
      ps.get? 0 = some (leftBankSurface 0 (mw * 0.5) bank_height (max mc mn),
        rightBankSurface 0 4 6 (mw * 0.5) bank_height (max mc mn),
        bottomSurface 0 4 6 (max mc mn)) ∧
      (leftBankSurface 0 (mw * 0.5) bank_height (max mc mn)).x.length = 3 ∧
      (leftBankSurface 0 (mw * 0.5) bank_height (max mc mn)).z.length = 3 ∧
      (∀ row ∈ (leftBankSurface 0 (mw * 0.5) bank_height (max mc mn)).x,
        row.length = 6 ∧ row.get? 0 = some 0 ∧ row.get? 5 = some 0) ∧
      (∀ row ∈ (leftBankSurface 0 (mw * 0.5) bank_height (max mc mn)).z,
        row.length = 6 ∧ row.get? 0 = some 0 ∧
          row.get? 5 = some (-(max mc mn) * 1.2)) :=
  ⟨⟨by decide, by decide, by decide, by decide⟩,
    c8_left_bank_grid c8Study 0
      { point_name := "Site 1", width := 4, num_measurements := 2, distances := [0, 4], depths := [1, 2] }
      { point_name := "Site 2", width := 6, num_measurements := 2, distances := [0, 6], depths := [2, 1] }
      (by decide) (by decide) (by decide) (by decide)⟩

theorem riverbedSurface_isSome (study : Study)
    (hwf : ∀ s ∈ study, s.depths ≠ [] ∧ s.distances.length = s.depths.length ∧
      (3 < s.distances.length → s.distances.Nodup)) :
    (riverbedSurface study).isSome := by
  unfold riverbedSurface
  obtain ⟨zs, hzs⟩ := Option.isSome_iff_exists.mp (optMap_isSome _ study
    (fun s hs => siteZInterp_isSome s (hwf s hs).1 (hwf s hs).2.1 (hwf s hs).2.2))
  rw [hzs]
  rfl

theorem pairSurfaces_isSome (study : Study) (be bh : ℚ)
    (hall : ∀ s ∈ study, s.depths ≠ []) :
    (pairSurfaces study be bh).isSome := by
  unfold pairSurfaces
  apply optMap_isSome
  intro k hk
  rw [List.mem_range] at hk
  cases hck : study.get? k with
  | none => rw [List.get?_eq_none] at hck; omega
  | some ck =>
    cases hck1 : study.get? (k + 1) with
    | none => rw [List.get?_eq_none] at hck1; omega
    | some ck1 =>
      obtain ⟨a, ha⟩ := Option.isSome_iff_exists.mp
        (max?_isSome_of_ne_nil (hall ck (List.get?_mem hck)))
      obtain ⟨b, hb⟩ := Option.isSome_iff_exists.mp
        (max?_isSome_of_ne_nil (hall ck1 (List.get?_mem hck1)))
      simp [maxDepthSection, ha, hb]

theorem compositeSurfaces_isSome (study : Study) (be : ℚ)
    (hwf : ∀ s ∈ study, s.depths ≠ [] ∧ s.distances.length = s.depths.length ∧
      (3 < s.distances.length → s.distances.Nodup)) :
    (compositeSurfaces study be).isSome := by
  unfold compositeSurfaces
  by_cases h2 : 2 ≤ study.length
  · rw [if_pos h2]
    obtain ⟨rb, hrb⟩ := Option.isSome_iff_exists.mp (riverbedSurface_isSome study hwf)
    obtain ⟨ps, hps⟩ := Option.isSome_iff_exists.mp
      (pairSurfaces_isSome study be bank_height (fun s hs => (hwf s hs).1))
    rw [hrb, hps]
    rfl
  · rw [if_neg h2]
    rfl

theorem compositeTraces_isSome (study : Study) (hne : study ≠ [])
    (hwf : ∀ s ∈ study, s.depths ≠ [] ∧ s.distances.length = s.depths.length ∧
      (3 < s.distances.length → s.distances.Nodup)) :
    (compositeTraces study).isSome := by
  obtain ⟨mw, hmw⟩ : ∃ mw, (study.map Site.width).max? = some mw := by
    apply Option.isSome_iff_exists.mp
    apply max?_isSome_of_ne_nil
    intro h0
    exact hne (List.map_eq_nil.mp h0)
  obtain ⟨dl, hdl⟩ : ∃ dl, optMap (fun s => s.depths.max?) study = some dl :=
    Option.isSome_iff_exists.mp (optMap_isSome _ study
      (fun s hs => max?_isSome_of_ne_nil (hwf s hs).1))
  obtain ⟨md, hmd⟩ : ∃ md, dl.max? = some md := by
    apply Option.isSome_iff_exists.mp
    apply max?_isSome_of_ne_nil
    intro h0
    rw [h0] at hdl
    have hl := optMap_length _ _ _ hdl
    simp only [List.length_nil] at hl
    exact hne (List.length_eq_zero.mp hl.symm)
  obtain ⟨sf, hsf⟩ := Option.isSome_iff_exists.mp
    (compositeSurfaces_isSome study (mw * 0.5) hwf)
  unfold compositeTraces
  rw [hmw, hdl, Option.some_bind, hmd]
  show (match compositeSurfaces study (mw * 0.5) with
    | none => none
    | some surfaces => some (surfaces ++ markerTraces study ++
        labelTraces study mw (mw * 0.5) bank_height)).isSome = true
  rw [hsf]
  rfl

theorem compositeTraces_single (s : Site) (hd : s.depths ≠ []) :
    compositeTraces [s] = some (markerTraces [s] ++
      labelTraces [s] s.width (s.width * 0.5) bank_height) := by
  obtain ⟨m, hm⟩ := Option.isSome_iff_exists.mp (max?_isSome_of_ne_nil hd)
  have h1 : (([s] : Study).map Site.width).max? = some s.width := rfl
  have h2 : optMap (fun st => st.depths.max?) [s] = some [m] := by
    simp [optMap, hm]
  have h3 : ([m] : List ℚ).max? = some m := rfl
  have h4 : compositeSurfaces [s] (s.width * 0.5) = some [] := by
    unfold compositeSurfaces
    rw [if_neg (by simp)]
  unfold compositeTraces
  rw [h1, h2, Option.some_bind, h3]
  show (match compositeSurfaces [s] (s.width * 0.5) with
    | none => none
    | some surfaces => some (surfaces ++ markerTraces [s] ++
        labelTraces [s] s.width (s.width * 0.5) bank_height)) =
    some (markerTraces [s] ++ labelTraces [s] s.width (s.width * 0.5) bank_height)
  rw [h4]
  rfl

/-- C2 (amended): for every study that passes the caller's precondition
(non-empty study with, per site, non-empty depths, equal-length arrays and
distances within `[0, width]`) and whose sites with more than 3 measurement
points have pairwise-distinct distances, no exception escapes the composite
geometry/interpolation construction; moreover the interpolator built with
`bounds_error=False` never rejects a query point, in or out of range. -/
theorem c2_no_exceptions (study : Study) (hv : ValidStudy study)
    (hnd : ∀ s ∈ study, 3 < s.distances.length → s.distances.Nodup) :
    (compositeTraces study).isSome = true ∧
    ∀ s ∈ study, ∀ (kind : InterpKind) (f : ℚ → Option ℚ),
      interp1d s.distances s.depths kind false = some f →
      ∀ x : ℚ, (f x).isSome = true := by
  obtain ⟨hne, hsite⟩ := hv
  refine ⟨compositeTraces_isSome study hne
    (fun s hs => ⟨(hsite s hs).1, (hsite s hs).2.1, hnd s hs⟩), ?_⟩
  intro s _ kind f hf x
  exact interp1d_eval_isSome hf x

/-- Witness discharging C2's hypotheses at `c2Study`. -/
theorem c2_no_exceptions_witness :
    (ValidStudy c2Study ∧
      ∀ s ∈ c2Study, 3 < s.distances.length → s.distances.Nodup) ∧
    ((compositeTraces c2Study).isSome = true ∧
      ∀ s ∈ c2Study, ∀ (kind : InterpKind) (f : ℚ → Option ℚ),
        interp1d s.distances s.depths kind false = some f →
        ∀ x : ℚ, (f x).isSome = true) :=
  ⟨⟨by decide, by decide⟩, c2_no_exceptions c2Study (by decide) (by decide)⟩

/-- Counterexample to C2 as stated: `c2DupStudy` satisfies the claim's
precondition (non-empty depths, matching lengths, distances within
`[0, width]`), yet the composite construction raises (`none`): the cubic
interpolant chosen for the 4-point first site rejects its duplicated
distance 0. -/
theorem c2_counterexample :
    ValidStudy c2DupStudy ∧ compositeTraces c2DupStudy = none :=
  ⟨by decide, by decide⟩

/-- C5 (amended): for every non-empty study satisfying the data-model
invariant (equal-length arrays; pairwise-distinct distances when a site has
more than 3 points), the composite visualization is produced if and only if
every site has at least one recorded depth, and the placeholder message is
shown if and only if some site has none: the depths-recorded gate is the
only cross-cutting precondition checked. -/
theorem c5_gate_iff (study : Study) (hne : study ≠ [])
    (hwf : ∀ s ∈ study, s.distances.length = s.depths.length ∧
      (3 < s.distances.length → s.distances.Nodup)) :
    ((∃ ts, renderPage study = some (PageView.composite ts)) ↔
      depthsRecorded study = true) ∧
    (renderPage study = some PageView.placeholderMsg ↔
      depthsRecorded study = false) := by
  have h0 : 0 < study.length := List.length_pos.mpr hne
  unfold renderPage vizTab
  rw [if_pos h0]
  by_cases hg : depthsRecorded study = true
  · rw [if_pos hg]
    have hdep : ∀ s ∈ study, s.depths ≠ [] := by
      intro s hs
      have hb := List.all_eq_true.mp hg s hs
      simp only [Bool.not_eq_true'] at hb
      intro h0d
      rw [h0d] at hb
      exact absurd hb (by decide)
    obtain ⟨ts, hts⟩ := Option.isSome_iff_exists.mp
      (compositeTraces_isSome study hne
        (fun s hs => ⟨hdep s hs, (hwf s hs).1, (hwf s hs).2⟩))
    rw [hts, Option.map_some']
    constructor
    · exact ⟨fun _ => hg, fun _ => ⟨ts, rfl⟩⟩
    · constructor
      · intro h
        exact absurd (Option.some.inj h) (by simp)
      · intro h
        rw [hg] at h
        exact absurd h (by decide)
  · rw [if_neg hg]
    have hgf : depthsRecorded study = false := by
      cases hq : depthsRecorded study
      · rfl
      · exact absurd hq hg
    constructor
    · constructor
      · rintro ⟨ts, hts⟩
        exact absurd (Option.some.inj hts) (by simp)
      · intro h
        exact absurd h hg
    · exact ⟨fun _ => hgf, fun _ => rfl⟩

/-- Witness discharging C5's hypotheses at `c5Study`. -/
theorem c5_gate_iff_witness :
    (c5Study ≠ [] ∧ ∀ s ∈ c5Study, s.distances.length = s.depths.length ∧
      (3 < s.distances.length → s.distances.Nodup)) ∧
    (((∃ ts, renderPage c5Study = some (PageView.composite ts)) ↔
        depthsRecorded c5Study = true) ∧
      (renderPage c5Study = some PageView.placeholderMsg ↔
        depthsRecorded c5Study = false)) :=
  ⟨⟨by decide, by decide⟩, c5_gate_iff c5Study (by decide) (by decide)⟩

/-- Counterexample to C5 as stated: (a) for the empty study the gate holds
vacuously, yet neither the composite nor the placeholder is shown, because
no visualization tab exists at all (`num_points > 0` check, line 36); (b)
for `c5BadStudy` the gate passes, yet the assembler raises on the mismatched
array lengths instead of producing the composite, so the gate is not the
only condition separating composite from no-composite. -/
theorem c5_counterexample :
    depthsRecorded ([] : Study) = true ∧
    renderPage ([] : Study) = some PageView.noSites ∧
    PageView.noSites.isComposite = false ∧
    PageView.noSites ≠ PageView.placeholderMsg ∧
    depthsRecorded c5BadStudy = true ∧
    renderPage c5BadStudy = none :=
  ⟨by decide, by decide, by decide, by decide, by decide, by decide⟩

/-- C10: for a study with exactly one site whose depths are non-empty (and
equal-length arrays), the composite path emits no surface mesh at all (the
surface construction is guarded by the two-site check), yet emits exactly one
marker per measurement point at `(distance, 0, -depth)` followed by the
site-name label, and the placeholder message is not shown. -/
theorem c10_single_site (s : Site) (hd : s.depths ≠ [])
    (hlen : s.distances.length = s.depths.length) :
    vizTab [s] = some (PageView.composite (
      (s.distances.zip s.depths).map (fun q =>
        Trace3D.marker [q.1] [(0 : ℚ)] [-q.2]) ++
      [Trace3D.siteLabel [s.width + s.width * 0.5 + 0.5] [(0 : ℚ)]
        [bank_height / 2] [s.point_name]])) ∧
    ((s.distances.zip s.depths).map (fun q =>
      Trace3D.marker [q.1] [(0 : ℚ)] [-q.2])).length = s.distances.length ∧
    (∀ t ∈ ((s.distances.zip s.depths).map (fun q =>
        Trace3D.marker [q.1] [(0 : ℚ)] [-q.2]) ++
      [Trace3D.siteLabel [s.width + s.width * 0.5 + 0.5] [(0 : ℚ)]
        [bank_height / 2] [s.point_name]]), t.isSurface = false) ∧
    vizTab [s] ≠ some PageView.placeholderMsg := by
  have hgate : depthsRecorded [s] = true := by
    simp only [depthsRecorded, List.all_cons, List.all_nil, Bool.and_true,
      Bool.not_eq_true']
    cases hdep : s.depths with
    | nil => exact absurd hdep hd
    | cons a t => rfl
  have hmk : markerTraces [s] = (s.distances.zip s.depths).map (fun q =>
      Trace3D.marker [q.1] [(0 : ℚ)] [-q.2]) := by
    unfold markerTraces
    show ((s.distances.zip s.depths).map (fun q =>
      Trace3D.marker [q.1] [((0 : ℕ) : ℚ)] [-q.2])) ++ [] = _
    rw [List.append_nil]
    apply List.map_congr_left
    intro q _
    norm_num
  have hlb : labelTraces [s] s.width (s.width * 0.5) bank_height =
      [Trace3D.siteLabel [s.width + s.width * 0.5 + 0.5] [(0 : ℚ)]
        [bank_height / 2] [s.point_name]] := by
    unfold labelTraces
    show [Trace3D.siteLabel [s.width + s.width * 0.5 + 0.5] [((0 : ℕ) : ℚ)]
      [bank_height / 2] [s.point_name]] = _
    norm_num
  have hmain : vizTab [s] = some (PageView.composite (
      (s.distances.zip s.depths).map (fun q =>
        Trace3D.marker [q.1] [(0 : ℚ)] [-q.2]) ++
      [Trace3D.siteLabel [s.width + s.width * 0.5 + 0.5] [(0 : ℚ)]
        [bank_height / 2] [s.point_name]])) := by
    unfold vizTab
    rw [if_pos hgate, compositeTraces_single s hd, Option.map_some', hmk, hlb]
  refine ⟨hmain, ?_, ?_, ?_⟩
  · rw [List.length_map, List.length_zip, ← hlen]
    exact min_self _
  · intro t ht
    rcases List.mem_append.mp ht with h | h
    · obtain ⟨q, _, hq⟩ := List.mem_map.mp h
      rw [← hq]
      rfl
    · rw [List.mem_singleton.mp h]
      rfl
  · rw [hmain]
    simp

/-- Witness discharging C10's hypotheses at `c10Site`. -/
theorem c10_single_site_witness :
    (c10Site.depths ≠ [] ∧ c10Site.distances.length = c10Site.depths.length) ∧
    (vizTab [c10Site] = some (PageView.composite (
        (c10Site.distances.zip c10Site.depths).map (fun q =>
          Trace3D.marker [q.1] [(0 : ℚ)] [-q.2]) ++
        [Trace3D.siteLabel [c10Site.width + c10Site.width * 0.5 + 0.5] [(0 : ℚ)]
          [bank_height / 2] [c10Site.point_name]])) ∧
      ((c10Site.distances.zip c10Site.depths).map (fun q =>
        Trace3D.marker [q.1] [(0 : ℚ)] [-q.2])).length = c10Site.distances.length ∧
      (∀ t ∈ ((c10Site.distances.zip c10Site.depths).map (fun q =>
          Trace3D.marker [q.1] [(0 : ℚ)] [-q.2]) ++
        [Trace3D.siteLabel [c10Site.width + c10Site.width * 0.5 + 0.5] [(0 : ℚ)]
          [bank_height / 2] [c10Site.point_name]]), t.isSurface = false) ∧
      vizTab [c10Site] ≠ some PageView.placeholderMsg) :=
  ⟨⟨by decide, by decide⟩, c10_single_site c10Site (by decide) (by decide)⟩

end Riverwalks
